import Mathlib

/-!
# Verification of the sentry-mcp core

A shallow embedding, in Lean 4, of the core logic of the `sentry_mcp`
package: the time-range validator (`sentry_mcp/utils/validators.py`), the
time-range resolver and the three report operations of `SentryReporter`
(`sentry_mcp/core/reporter.py`), and the request router of
`SentryMCPServer` (`sentry_mcp/core/server.py`).

Python exceptions are modelled by `Except SentryError`.  Instants
(`datetime`) are modelled as integers counting seconds.  JSON values
returned by the upstream HTTP API are modelled by the inductive `JValue`;
upstream responses themselves are inputs of the embedded functions, of type
`Except SentryError JValue`, so that an upstream failure is an arbitrary
error input.
-/

/-- The exception taxonomy of `sentry_mcp/utils/exceptions.py`, together
with a constructor for untyped Python runtime errors (KeyError,
IndexError, AttributeError, TypeError, ...), which the source code does not
wrap. -/
inductive SentryError where
  | validationError (msg : String)
  | apiError (msg : String)
  | configError (msg : String)
  | pyError (msg : String)
deriving Repr, DecidableEq

/-- `True` exactly for the typed errors of `exceptions.py`
(`SentryValidationError`, `SentryAPIError`, `SentryConfigError`), i.e. the
classes caught by the first `except` clause of `handle_request`. -/
def SentryError.isTyped : SentryError → Bool
  | .validationError _ => true
  | .apiError _ => true
  | .configError _ => true
  | .pyError _ => false

/-- The Python `str(e)` of an exception: its message. -/
def SentryError.message : SentryError → String
  | .validationError m => m
  | .apiError m => m
  | .configError m => m
  | .pyError m => m

/-- Value of a digit string in base 10, as computed by Python `int` on a
string of decimal digits. -/
def digitsToNat (cs : List Char) : Nat :=
  cs.foldl (fun a c => 10 * a + (c.toNat - Char.toNat ('0'))) 0

/-- Whether `s` matches the regular expression `^\d+[hd]$` of
`validate_time_range` (`validators.py`, line 24): one or more decimal
digits followed by a single `h` or `d`. -/
def matchesTimePattern (s : String) : Bool :=
  match s.data.getLast? with
  | some u => (u == 'h' || u == 'd') && !s.data.dropLast.isEmpty
      && s.data.dropLast.all (·.isDigit)
  | none => false

/-- `int(time_range[:-1])`: the numeric part of a time-range string. -/
def timeValue (s : String) : Nat := digitsToNat s.data.dropLast

/-- `time_range[-1]`: the unit character of a time-range string (`none`
for the empty string, where Python indexing would raise). -/
def timeUnit (s : String) : Option Char := s.data.getLast?

/-- Embedding of `validate_time_range` (`sentry_mcp/utils/validators.py`).
The source checks, in order: `time_range == 'all'` returns; the regex
`^\d+[hd]$` must match; the value must be positive (for a digit string
this means nonzero); hour values above 168 and day values above 90 are
rejected. -/
def validate_time_range (time_range : String) : Except SentryError Unit :=
  if time_range = "all" then .ok ()
  else if matchesTimePattern time_range = false then
    .error (.validationError ("Invalid time range format: " ++ time_range))
  else if timeValue time_range = 0 then
    .error (.validationError ("Time range value must be positive"))
  else if timeUnit time_range = some ('h') ∧ 168 < timeValue time_range then
    .error (.validationError ("Hour-based time range too large"))
  else if timeUnit time_range = some ('d') ∧ 90 < timeValue time_range then
    .error (.validationError ("Day-based time range too large"))
  else .ok ()

/-- The set of time-range strings that the specification says are
accepted, transcribed from the claim: exactly `"all"`, or a string of one
or more digits followed by `h` or `d`, whose numeric value `N` satisfies
`1 ≤ N`, with `N ≤ 168` for unit `h` and `N ≤ 90` for unit `d`. -/
def specAcceptedTimeRange (s : String) : Prop :=
  s = "all" ∨
  ∃ (ds : List Char) (u : Char),
    s.data = ds ++ [u] ∧ ds ≠ [] ∧ (∀ c ∈ ds, c.isDigit = true) ∧
    (u = 'h' ∨ u = 'd') ∧
    1 ≤ digitsToNat ds ∧
    (u = 'h' → digitsToNat ds ≤ 168) ∧
    (u = 'd' → digitsToNat ds ≤ 90)

theorem list_isEmpty_false_iff {α : Type} (l : List α) :
    l.isEmpty = false ↔ l ≠ [] := by
  cases l <;> simp

theorem matchesTimePattern_iff (s : String) :
    matchesTimePattern s = true ↔
    ∃ (ds : List Char) (u : Char),
      s.data = ds ++ [u] ∧ ds ≠ [] ∧ (∀ c ∈ ds, c.isDigit = true) ∧
      (u = 'h' ∨ u = 'd') := by
  unfold matchesTimePattern
  constructor
  · intro h
    cases hl : s.data.getLast? with
    | none => rw [hl] at h; exact absurd h (by simp)
    | some u =>
      rw [hl] at h
      simp only [Bool.and_eq_true, Bool.or_eq_true, beq_iff_eq,
        Bool.not_eq_true', list_isEmpty_false_iff, List.all_eq_true] at h
      obtain ⟨⟨hu, hne⟩, hdig⟩ := h
      refine ⟨s.data.dropLast, u, ?_, hne, hdig, hu⟩
      have hnil : s.data ≠ [] := by
        intro hcon; rw [hcon] at hl; exact absurd hl (by simp)
      have := List.dropLast_append_getLast hnil
      rw [List.getLast?_eq_getLast s.data hnil] at hl
      rw [Option.some_inj] at hl
      rw [hl] at this
      exact this.symm
  · rintro ⟨ds, u, hsplit, hne, hdig, hu⟩
    rw [hsplit, List.getLast?_concat, List.dropLast_concat]
    simp only [Bool.and_eq_true, Bool.or_eq_true, beq_iff_eq,
      Bool.not_eq_true', list_isEmpty_false_iff, List.all_eq_true]
    exact ⟨⟨hu, hne⟩, hdig⟩

theorem timeValue_of_split (s : String) (ds : List Char) (u : Char)
    (h : s.data = ds ++ [u]) : timeValue s = digitsToNat ds := by
  unfold timeValue
  rw [h, List.dropLast_concat]

theorem timeUnit_of_split (s : String) (ds : List Char) (u : Char)
    (h : s.data = ds ++ [u]) : timeUnit s = some u := by
  unfold timeUnit
  rw [h, List.getLast?_concat]

theorem matchesTimePattern_unit (s : String) (h : matchesTimePattern s = true) :
    timeUnit s = some ('h') ∨ timeUnit s = some ('d') := by
  obtain ⟨ds, u, hsplit, _, _, hu⟩ := (matchesTimePattern_iff s).mp h
  have := timeUnit_of_split s ds u hsplit
  rcases hu with h1 | h1
  · left; rw [this, h1]
  · right; rw [this, h1]

/-- The validator succeeds exactly on the accepted set. -/
theorem validate_time_range_ok_iff (s : String) :
    validate_time_range s = .ok () ↔ specAcceptedTimeRange s := by
  unfold validate_time_range specAcceptedTimeRange
  split_ifs with h1 h2 h3 h4 h5
  · simp [h1]
  · constructor
    · intro h; exact absurd h (by simp)
    · rintro (h | ⟨ds, u, hsplit, hne, hdig, hu, _⟩)
      · exact absurd h h1
      · have : matchesTimePattern s = true :=
          (matchesTimePattern_iff s).mpr ⟨ds, u, hsplit, hne, hdig, hu⟩
        rw [this] at h2; exact absurd h2 (by simp)
  · constructor
    · intro h; exact absurd h (by simp)
    · rintro (h | ⟨ds, u, hsplit, _, _, _, hpos, _, _⟩)
      · exact absurd h h1
      · rw [timeValue_of_split s ds u hsplit] at h3
        omega
  · constructor
    · intro h; exact absurd h (by simp)
    · rintro (h | ⟨ds, u, hsplit, _, _, _, _, hh, _⟩)
      · exact absurd h h1
      · obtain ⟨huu, hlt⟩ := h4
        rw [timeUnit_of_split s ds u hsplit] at huu
        rw [Option.some_inj] at huu
        rw [timeValue_of_split s ds u hsplit] at hlt
        have := hh huu
        omega
  · constructor
    · intro h; exact absurd h (by simp)
    · rintro (h | ⟨ds, u, hsplit, _, _, _, _, _, hd⟩)
      · exact absurd h h1
      · obtain ⟨huu, hlt⟩ := h5
        rw [timeUnit_of_split s ds u hsplit] at huu
        rw [Option.some_inj] at huu
        rw [timeValue_of_split s ds u hsplit] at hlt
        have := hd huu
        omega
  · constructor
    · intro _
      right
      have hm : matchesTimePattern s = true := by
        cases hmm : matchesTimePattern s with
        | false => exact absurd hmm h2
        | true => rfl
      obtain ⟨ds, u, hsplit, hne, hdig, hu⟩ := (matchesTimePattern_iff s).mp hm
      refine ⟨ds, u, hsplit, hne, hdig, hu, ?_, ?_, ?_⟩
      · rw [timeValue_of_split s ds u hsplit] at h3; omega
      · intro huh
        by_contra hgt
        apply h4
        constructor
        · rw [timeUnit_of_split s ds u hsplit, huh]
        · rw [timeValue_of_split s ds u hsplit]; omega
      · intro hud
        by_contra hgt
        apply h5
        constructor
        · rw [timeUnit_of_split s ds u hsplit, hud]
        · rw [timeValue_of_split s ds u hsplit]; omega
    · intro _; rfl

/-- C1: `validate_time_range` raises `SentryValidationError` if and only
if the input is neither exactly `"all"` nor a string `^\d+[hd]$` whose
value `N` satisfies `1 ≤ N` and `N ≤ 168` for hours, `N ≤ 90` for days;
inside that set it returns without raising. -/
theorem validate_time_range_error_iff_not_accepted (s : String) :
    (∃ e, validate_time_range s = .error e) ↔ ¬ specAcceptedTimeRange s := by
  rw [← validate_time_range_ok_iff]
  constructor
  · rintro ⟨e, he⟩ hok
    rw [hok] at he
    exact absurd he (by simp)
  · intro hnok
    cases hv : validate_time_range s with
    | ok u => cases u; exact absurd hv hnok
    | error e => exact ⟨e, rfl⟩

/-- Embedding of `SentryReporter._parse_time_range` (`reporter.py`, lines
99..115).  Instants are integers counting seconds; `now` is the single
`datetime.now()` read at the top of the function, and `creation` is the
outcome of the upstream lookup `_get_project_creation_date`, performed
only in the `"all"` branch (it calls `_make_request` and so can fail, which
is why it is an `Except` input).  `timedelta(hours=v)` spans `3600 * v`
seconds and `timedelta(days=v)` spans `86400 * v` seconds.  If neither
unit branch assigned `delta`, the source would raise an unbound-local
error at `now - delta`; after validation this is unreachable. -/
def parse_time_range (now : Int) (creation : Except SentryError Int)
    (time_range : String) : Except SentryError (Int × Int) :=
  if time_range = "all" then
    creation.bind (fun c => .ok (c, now))
  else
    (validate_time_range time_range).bind (fun _ =>
      if timeUnit time_range = some ('h') then
        .ok (now - 3600 * (timeValue time_range : Int), now)
      else if timeUnit time_range = some ('d') then
        .ok (now - 86400 * (timeValue time_range : Int), now)
      else .error (.pyError ("UnboundLocalError: delta")))

theorem validate_ok_numeric (s : String) (h : validate_time_range s = .ok ())
    (hne : s ≠ "all") : matchesTimePattern s = true ∧ 1 ≤ timeValue s := by
  unfold validate_time_range at h
  rw [if_neg hne] at h
  split_ifs at h with h2 h3 h4 h5
  constructor
  · cases hmm : matchesTimePattern s with
    | false => exact absurd hmm h2
    | true => rfl
  · omega

/-- C2: for every valid numeric time range `"<N>h"` or `"<N>d"`,
`_parse_time_range` captures `now` once and returns `(now - N*unit, now)`:
the returned end is exactly the captured `now`, and end minus start equals
exactly `N` hours (3600·N seconds), respectively `N` days (86400·N
seconds). -/
theorem parse_time_range_numeric_width (now : Int)
    (creation : Except SentryError Int) (s : String)
    (hok : validate_time_range s = .ok ()) (hne : s ≠ "all") :
    ∃ start, parse_time_range now creation s = .ok (start, now) ∧
      ((timeUnit s = some ('h') ∧ now - start = 3600 * (timeValue s : Int)) ∨
       (timeUnit s = some ('d') ∧ now - start = 86400 * (timeValue s : Int))) := by
  obtain ⟨hm, _⟩ := validate_ok_numeric s hok hne
  unfold parse_time_range
  rw [if_neg hne, hok]
  rcases matchesTimePattern_unit s hm with hu | hu
  · refine ⟨now - 3600 * (timeValue s : Int), ?_, Or.inl ⟨hu, by ring⟩⟩
    show (if timeUnit s = some ('h') then _ else _) = _
    rw [if_pos hu]
  · refine ⟨now - 86400 * (timeValue s : Int), ?_, Or.inr ⟨hu, by ring⟩⟩
    show (if timeUnit s = some ('h') then _ else _) = _
    have hne' : timeUnit s ≠ some ('h') := by
      rw [hu]; intro hc; exact absurd (Option.some_inj.mp hc) (by decide)
    rw [if_neg hne', if_pos hu]

/-- Witness for C2 at the concrete range `"24h"` with `now = 0`. -/
theorem parse_time_range_numeric_width_witness :
    ∃ start, parse_time_range 0 (.ok 0) ("24h") = .ok (start, 0) ∧
      ((timeUnit ("24h") = some ('h') ∧
          0 - start = 3600 * (timeValue ("24h") : Int)) ∨
       (timeUnit ("24h") = some ('d') ∧
          0 - start = 86400 * (timeValue ("24h") : Int))) :=
  parse_time_range_numeric_width 0 (.ok 0) ("24h") (by rfl) (by decide)

/-- C3 as stated is false: the `"all"` branch returns whatever instant the
upstream lookup reports as the project creation time, with no comparison
against `now`; if that instant lies after `now` (here one second after),
the returned pair has start > end. -/
theorem parse_time_range_start_le_end_counterexample :
    parse_time_range 0 (.ok 1) ("all") = .ok (1, 0) ∧ ¬ ((1 : Int) ≤ 0) := by
  exact ⟨rfl, by decide⟩

/-- C3 amended: every pair returned by `_parse_time_range` has the
captured `now` as its end; for numeric ranges `start ≤ end` holds, while
for `"all"` the start is exactly the upstream-reported creation instant,
so `start ≤ end` holds only when that instant is not after `now`. -/
theorem parse_time_range_start_le_end_amended (now : Int)
    (creation : Except SentryError Int) (s : String) (st en : Int)
    (h : parse_time_range now creation s = .ok (st, en)) :
    en = now ∧ (s = "all" → creation = .ok st) ∧ (s ≠ "all" → st ≤ en) := by
  unfold parse_time_range at h
  by_cases hs : s = "all"
  · rw [if_pos hs] at h
    cases creation with
    | ok c =>
      simp only [Except.bind] at h
      obtain ⟨h1, h2⟩ := Prod.mk.injEq .. ▸ (Except.ok.injEq .. ▸ h)
      refine ⟨h2.symm, fun _ => ?_, fun hc => absurd hs hc⟩
      rw [h1]
    | error e => exact absurd h (by simp [Except.bind])
  · rw [if_neg hs] at h
    cases hv : validate_time_range s with
    | error e => rw [hv] at h; exact absurd h (by simp [Except.bind])
    | ok u =>
      rw [hv] at h
      simp only [Except.bind] at h
      have hnn : (0 : Int) ≤ (timeValue s : Int) := Int.natCast_nonneg _
      split_ifs at h
      · obtain ⟨h1, h2⟩ := Prod.mk.injEq .. ▸ (Except.ok.injEq .. ▸ h)
        refine ⟨h2.symm, fun hc => absurd hc hs, fun _ => ?_⟩
        omega
      · obtain ⟨h1, h2⟩ := Prod.mk.injEq .. ▸ (Except.ok.injEq .. ▸ h)
        refine ⟨h2.symm, fun hc => absurd hc hs, fun _ => ?_⟩
        omega

/-- Witness for the amended C3 at the concrete range `"3h"`, `now = 5`. -/
theorem parse_time_range_start_le_end_amended_witness :
    (5 : Int) = 5 ∧ ("3h" = "all" → (Except.ok 2 : Except SentryError Int) = .ok (-10795)) ∧
    ("3h" ≠ "all" → (-10795 : Int) ≤ 5) :=
  parse_time_range_start_le_end_amended 5 (.ok 2) ("3h") (-10795) 5 (by rfl)

/-- JSON values, as returned by `response.json()` on upstream responses
and by `json.loads` on incoming requests.  Numbers are modelled as
integers (every numeric field the code touches is a count).  Objects are
association lists; Python dicts produced by JSON parsing have unique
keys. -/
inductive JValue where
  | jnull
  | jbool (b : Bool)
  | jnum (n : Int)
  | jstr (s : String)
  | jarr (xs : List JValue)
  | jobj (kvs : List (String × JValue))
deriving Repr, Inhabited

/-- Key lookup in a parsed JSON object. -/
def lookupKey (kvs : List (String × JValue)) (key : String) : Option JValue :=
  (kvs.find? (fun kv => kv.1 == key)).map Prod.snd

/-- Python `obj[key]` on a parsed JSON value: `KeyError` when the key is
absent, `TypeError` when the value is not a dict. -/
def JValue.item : JValue → String → Except SentryError JValue
  | .jobj kvs, key =>
    match lookupKey kvs key with
    | some v => .ok v
    | none => .error (.pyError ("KeyError: " ++ key))
  | _, key => .error (.pyError ("TypeError: value is not subscriptable: " ++ key))

/-- Python `obj.get(key, default)` on a parsed JSON value: the default
when the key is absent, `AttributeError` when the value is not a dict. -/
def JValue.getD : JValue → String → JValue → Except SentryError JValue
  | .jobj kvs, key, dflt => .ok ((lookupKey kvs key).getD dflt)
  | _, _, _ => .error (.pyError ("AttributeError: value has no attribute get"))

/-- Integer value of a string consisting of an optional sign followed by
decimal digits, as accepted by Python `int` (ignoring the additional
whitespace-stripping and underscore forms Python also accepts, which no
upstream count field uses). -/
def parseIntString (s : String) : Option Int :=
  match s.data with
  | [] => none
  | '-' :: rest =>
    if rest ≠ [] ∧ rest.all (·.isDigit) then some (-(digitsToNat rest : Int))
    else none
  | '+' :: rest =>
    if rest ≠ [] ∧ rest.all (·.isDigit) then some ((digitsToNat rest : Int))
    else none
  | cs =>
    if cs.all (·.isDigit) then some ((digitsToNat cs : Int)) else none

/-- Python `int(x)` on a JSON value: integers pass through, booleans map
to 0/1, signed digit strings parse, everything else raises. -/
def pyInt : JValue → Except SentryError Int
  | .jnum n => .ok n
  | .jbool b => .ok (if b then 1 else 0)
  | .jstr s =>
    match parseIntString s with
    | some n => .ok n
    | none => .error (.pyError ("ValueError: invalid literal for int: " ++ s))
  | _ => .error (.pyError ("TypeError: int argument must be a string or a number"))

/-- Python `for x in v`: lists iterate over their elements, dicts over
their keys, strings over their one-character substrings; other values
raise `TypeError`. -/
def jIter : JValue → Except SentryError (List JValue)
  | .jarr xs => .ok xs
  | .jobj kvs => .ok (kvs.map (fun kv => .jstr kv.1))
  | .jstr s => .ok (s.data.map (fun c => .jstr (String.mk [c])))
  | _ => .error (.pyError ("TypeError: value is not iterable"))

/-- One summand of the generator `int(issue.get(key, 0)) for issue in stats`
(`reporter.py`, lines 147-148). -/
def issueField (key : String) (issue : JValue) : Except SentryError Int :=
  (issue.getD key (.jnum 0)).bind pyInt

/-- The sum `sum(int(issue.get(key, 0)) for issue in stats)`: summands are
evaluated left to right and the first exception aborts the sum. -/
def sumIntField (issues : List JValue) (key : String) : Except SentryError Int :=
  match issues with
  | [] => .ok 0
  | issue :: rest =>
    (issueField key issue).bind (fun n =>
      (sumIntField rest key).bind (fun m => .ok (n + m)))

/-- A Python list comprehension `[f x for x in l]` over fallible `f`:
elements left to right, first exception aborts. -/
def mapExcept {α β : Type} (f : α → Except SentryError β) :
    List α → Except SentryError (List β)
  | [] => .ok []
  | a :: l =>
    (f a).bind (fun b => (mapExcept f l).bind (fun bs => .ok (b :: bs)))

/-- The dictionary returned by `get_project_stats` (`reporter.py`, lines
150-158); the `time_range` sub-dictionary is kept as the instant pair. -/
structure ProjectStats where
  total_errors : Int
  total_users_affected : Int
  error_breakdown : Option JValue
  time_range_start : Int
  time_range_end : Int
deriving Repr

/-- Embedding of `SentryReporter.get_project_stats` (`reporter.py`, lines
117..165): resolve the time range, perform the issues query (`upstream` is
its outcome), sum the `count` and `userCount` fields, and attach the raw
response as `error_breakdown` only when `group_by` was supplied.  The
`environment` and `group_by` arguments also shape the request parameters,
which the query outcome `upstream` already reflects. -/
def get_project_stats (now : Int) (creation : Except SentryError Int)
    (upstream : Except SentryError JValue) (time_range : String)
    (group_by : Option String) : Except SentryError ProjectStats :=
  (parse_time_range now creation time_range).bind (fun se =>
    upstream.bind (fun stats =>
      (jIter stats).bind (fun issues =>
        (sumIntField issues ("count")).bind (fun total_errors =>
          (sumIntField issues ("userCount")).bind (fun total_users =>
            .ok { total_errors := total_errors,
                  total_users_affected := total_users,
                  error_breakdown := if group_by.isSome then some stats else none,
                  time_range_start := se.1,
                  time_range_end := se.2 })))))

theorem sumIntField_of_mapExcept (key : String) (issues : List JValue)
    (cs : List Int) (h : mapExcept (issueField key) issues = .ok cs) :
    sumIntField issues key = .ok cs.sum := by
  induction issues generalizing cs with
  | nil =>
    unfold mapExcept at h
    obtain rfl := Except.ok.injEq .. ▸ h
    rfl
  | cons a l ih =>
    unfold mapExcept at h
    unfold sumIntField
    cases ha : issueField key a with
    | error e => rw [ha] at h; exact absurd h (by simp [Except.bind])
    | ok b =>
      rw [ha] at h
      cases hl : mapExcept (issueField key) l with
      | error e => rw [hl] at h; exact absurd h (by simp [Except.bind])
      | ok bs =>
        rw [hl] at h
        simp only [Except.bind] at h ⊢
        obtain rfl := Except.ok.injEq .. ▸ h
        rw [ih bs hl]
        simp [Except.bind, List.sum_cons]

/-- C4: whenever the issues query returns a list whose `count` fields
evaluate to the integers `cs` and whose `userCount` fields evaluate to the
integers `us`, `get_project_stats` succeeds with `total_errors = cs.sum`
and `total_users_affected = us.sum`. -/
theorem get_project_stats_totals (now : Int) (creation : Except SentryError Int)
    (time_range : String) (group_by : Option String) (issues : List JValue)
    (cs us : List Int) (st en : Int)
    (htr : parse_time_range now creation time_range = .ok (st, en))
    (hc : mapExcept (issueField ("count")) issues = .ok cs)
    (hu : mapExcept (issueField ("userCount")) issues = .ok us) :
    ∃ r, get_project_stats now creation (.ok (.jarr issues)) time_range group_by
        = .ok r ∧ r.total_errors = cs.sum ∧ r.total_users_affected = us.sum := by
  have hc' := sumIntField_of_mapExcept _ _ _ hc
  have hu' := sumIntField_of_mapExcept _ _ _ hu
  refine ⟨{ total_errors := cs.sum, total_users_affected := us.sum,
            error_breakdown := if group_by.isSome then some (.jarr issues) else none,
            time_range_start := st, time_range_end := en }, ?_, rfl, rfl⟩
  unfold get_project_stats
  rw [htr]
  simp only [Except.bind, jIter]
  rw [hc']
  simp only [Except.bind]
  rw [hu']

/-- Witness for C4 on the two issues of the specification example:
`{count:10, userCount:5}` and `{count:20, userCount:8}` yield
`total_errors = 30` and `total_users_affected = 13`. -/
theorem get_project_stats_totals_witness :
    ∃ r, get_project_stats 0 (.ok 0)
        (.ok (.jarr [ .jobj [(("count"), .jnum 10), (("userCount"), .jnum 5)],
                      .jobj [(("count"), .jnum 20), (("userCount"), .jnum 8)]]))
        ("24h") none = .ok r ∧
      r.total_errors = 30 ∧ r.total_users_affected = 13 := by
  have h := get_project_stats_totals 0 (.ok 0) ("24h") none
    [ .jobj [(("count"), .jnum 10), (("userCount"), .jnum 5)],
      .jobj [(("count"), .jnum 20), (("userCount"), .jnum 8)]]
    [10, 20] [5, 8] (-86400) 0 (by rfl) (by rfl) (by rfl)
  simpa using h

theorem mapExcept_ok_length {α β : Type} (f : α → Except SentryError β)
    (l : List α) (l2 : List β) (h : mapExcept f l = .ok l2) :
    l2.length = l.length := by
  induction l generalizing l2 with
  | nil =>
    unfold mapExcept at h
    obtain rfl := Except.ok.injEq .. ▸ h
    rfl
  | cons a t ih =>
    unfold mapExcept at h
    cases ha : f a with
    | error e => rw [ha] at h; exact absurd h (by simp [Except.bind])
    | ok b =>
      rw [ha] at h
      cases ht : mapExcept f t with
      | error e => rw [ht] at h; exact absurd h (by simp [Except.bind])
      | ok bs =>
        rw [ht] at h
        simp only [Except.bind] at h
        obtain rfl := Except.ok.injEq .. ▸ h
        simp [ih bs ht]

theorem mapExcept_ok_get {α β : Type} (f : α → Except SentryError β)
    (l : List α) (l2 : List β) (h : mapExcept f l = .ok l2) (i : Nat) (b : β)
    (hb : l2.get? i = some b) : ∃ a, l.get? i = some a ∧ f a = .ok b := by
  induction l generalizing l2 i with
  | nil =>
    unfold mapExcept at h
    obtain rfl := Except.ok.injEq .. ▸ h
    exact absurd hb (by simp)
  | cons a t ih =>
    unfold mapExcept at h
    cases ha : f a with
    | error e => rw [ha] at h; exact absurd h (by simp [Except.bind])
    | ok c =>
      rw [ha] at h
      cases ht : mapExcept f t with
      | error e => rw [ht] at h; exact absurd h (by simp [Except.bind])
      | ok bs =>
        rw [ht] at h
        simp only [Except.bind] at h
        obtain rfl := Except.ok.injEq .. ▸ h
        cases i with
        | zero =>
          obtain rfl : c = b := by
            have := hb
            simp only [List.get?_cons_zero, Option.some_inj] at this
            exact this
          exact ⟨a, rfl, ha⟩
        | succ n =>
          simp only [List.get?_cons_succ] at hb
          obtain ⟨a2, h1, h2⟩ := ih bs ht n hb
          exact ⟨a2, by simpa using h1, h2⟩

/-- One entry of the `trends` list built by `get_error_trends`
(`reporter.py`, lines 194-201); the six fields are copied verbatim from
the upstream issue object (`users_affected` defaulting to 0). -/
structure Trend where
  error_type : JValue
  message : JValue
  count : JValue
  users_affected : JValue
  first_seen : JValue
  last_seen : JValue
deriving Repr

/-- The per-issue mapping of the list comprehension in `get_error_trends`:
`type`, `title`, `count`, `firstSeen`, `lastSeen` are required lookups
(`issue[...]`), `userCount` defaults to 0 (`issue.get(...)`); the dict
literal evaluates them in this order. -/
def trendOf (issue : JValue) : Except SentryError Trend :=
  (issue.item ("type")).bind (fun et =>
  (issue.item ("title")).bind (fun ti =>
  (issue.item ("count")).bind (fun cn =>
  (issue.getD ("userCount") (.jnum 0)).bind (fun ua =>
  (issue.item ("firstSeen")).bind (fun fs =>
  (issue.item ("lastSeen")).bind (fun ls =>
  .ok ⟨et, ti, cn, ua, fs, ls⟩))))))

/-- The dictionary returned by `get_error_trends` (`reporter.py`, lines
193-206). -/
structure ErrorTrends where
  trends : List Trend
  time_range_start : Int
  time_range_end : Int
deriving Repr

/-- The query parameters `get_error_trends` sends to the issues endpoint
(`reporter.py`, lines 175-184), after the `None`-filtering step: entries
whose value would be `None` are dropped, `query` is the f-string
`times_seen:>=<min_occurrences>`, `sort` is `freq` and `limit` is 100. -/
def error_trends_params (time_range : String) (start_iso end_iso : String)
    (min_occurrences : Int) (project_id : String) : List (String × JValue) :=
  ([(("statsPeriod"),
      if time_range ≠ "all" then some (JValue.jstr time_range) else none),
    (("start"), if time_range = "all" then some (JValue.jstr start_iso) else none),
    (("end"), if time_range = "all" then some (JValue.jstr end_iso) else none),
    (("query"), some (.jstr (("times_seen:>=") ++ toString min_occurrences))),
    (("sort"), some (.jstr ("freq"))),
    (("limit"), some (.jnum 100)),
    (("project"), some (.jstr project_id))]).filterMap
    (fun kv => kv.2.map (fun v => (kv.1, v)))

/-- Embedding of `SentryReporter.get_error_trends` (`reporter.py`, lines
167..213): resolve the time range, perform the issues query (`upstream`
is its outcome — the request carries the parameters modelled by
`error_trends_params`), and map each returned issue through `trendOf`. -/
def get_error_trends (now : Int) (creation : Except SentryError Int)
    (upstream : Except SentryError JValue) (time_range : String) :
    Except SentryError ErrorTrends :=
  (parse_time_range now creation time_range).bind (fun se =>
    upstream.bind (fun raw =>
      (jIter raw).bind (fun issues =>
        (mapExcept trendOf issues).bind (fun ts =>
          .ok ⟨ts, se.1, se.2⟩))))

theorem trendOf_ok_inv (issue : JValue) (t : Trend) (h : trendOf issue = .ok t) :
    issue.item ("type") = .ok t.error_type ∧
    issue.item ("title") = .ok t.message ∧
    issue.item ("count") = .ok t.count ∧
    issue.getD ("userCount") (.jnum 0) = .ok t.users_affected ∧
    issue.item ("firstSeen") = .ok t.first_seen ∧
    issue.item ("lastSeen") = .ok t.last_seen := by
  unfold trendOf at h
  cases h1 : issue.item ("type") with
  | error e => rw [h1] at h; exact absurd h (by simp [Except.bind])
  | ok et =>
  rw [h1] at h
  simp only [Except.bind] at h
  cases h2 : issue.item ("title") with
  | error e => rw [h2] at h; exact absurd h (by simp [Except.bind])
  | ok ti =>
  rw [h2] at h
  simp only [Except.bind] at h
  cases h3 : issue.item ("count") with
  | error e => rw [h3] at h; exact absurd h (by simp [Except.bind])
  | ok cn =>
  rw [h3] at h
  simp only [Except.bind] at h
  cases h4 : issue.getD ("userCount") (.jnum 0) with
  | error e => rw [h4] at h; exact absurd h (by simp [Except.bind])
  | ok ua =>
  rw [h4] at h
  simp only [Except.bind] at h
  cases h5 : issue.item ("firstSeen") with
  | error e => rw [h5] at h; exact absurd h (by simp [Except.bind])
  | ok fs =>
  rw [h5] at h
  simp only [Except.bind] at h
  cases h6 : issue.item ("lastSeen") with
  | error e => rw [h6] at h; exact absurd h (by simp [Except.bind])
  | ok ls =>
  rw [h6] at h
  simp only [Except.bind] at h
  obtain rfl := Except.ok.injEq .. ▸ h
  exact ⟨rfl, rfl, rfl, rfl, rfl, rfl⟩

/-- C5: the issues request of `get_error_trends` carries `limit = 100`
(so the upstream list has at most 100 entries — here a hypothesis on the
response); the returned `trends` list has one entry per upstream issue in
the same order, each entry copying `error_type` from the upstream `type`
field, `message` from `title`, `count` from `count`, `users_affected`
from `userCount` (default 0), `first_seen` from `firstSeen` and
`last_seen` from `lastSeen`. -/
theorem get_error_trends_shape (now : Int) (creation : Except SentryError Int)
    (time_range : String) (issues : List JValue) (r : ErrorTrends)
    (hlim : issues.length ≤ 100)
    (h : get_error_trends now creation (.ok (.jarr issues)) time_range = .ok r) :
    (∀ siso eiso mo pid, (("limit"), JValue.jnum 100) ∈
        error_trends_params time_range siso eiso mo pid) ∧
    r.trends.length = issues.length ∧ r.trends.length ≤ 100 ∧
    (∀ i t, r.trends.get? i = some t → ∃ issue, issues.get? i = some issue ∧
      issue.item ("type") = .ok t.error_type ∧
      issue.item ("title") = .ok t.message ∧
      issue.item ("count") = .ok t.count ∧
      issue.getD ("userCount") (.jnum 0) = .ok t.users_affected ∧
      issue.item ("firstSeen") = .ok t.first_seen ∧
      issue.item ("lastSeen") = .ok t.last_seen) := by
  unfold get_error_trends at h
  cases htr : parse_time_range now creation time_range with
  | error e => rw [htr] at h; exact absurd h (by simp [Except.bind])
  | ok se =>
  rw [htr] at h
  simp only [Except.bind, jIter] at h
  cases hm : mapExcept trendOf issues with
  | error e => rw [hm] at h; exact absurd h (by simp [Except.bind])
  | ok ts =>
  rw [hm] at h
  simp only [Except.bind] at h
  obtain rfl := Except.ok.injEq .. ▸ h
  have hlen := mapExcept_ok_length trendOf issues ts hm
  refine ⟨?_, hlen, ?_, ?_⟩
  · intro siso eiso mo pid
    by_cases hall : time_range = "all" <;>
      simp [error_trends_params, hall, List.filterMap]
  · show ts.length ≤ 100
    omega
  · intro i t hb
    obtain ⟨issue, hi, ht⟩ := mapExcept_ok_get trendOf issues ts hm i t hb
    exact ⟨issue, hi, trendOf_ok_inv issue t ht⟩

/-- The single upstream issue of the specification example for C5. -/
def trendsWitnessIssue : JValue :=
  .jobj [(("type"), .jstr ("error")),
         (("title"), .jstr ("Test Error")),
         (("count"), .jnum 10),
         (("userCount"), .jnum 5),
         (("firstSeen"), .jstr ("2023-01-01T00:00:00Z")),
         (("lastSeen"), .jstr ("2023-01-02T00:00:00Z"))]

/-- The result `get_error_trends` computes on that issue with range
`"7d"` and `now = 0`. -/
def trendsWitnessResult : ErrorTrends :=
  ⟨[⟨.jstr ("error"), .jstr ("Test Error"), .jnum 10, .jnum 5,
     .jstr ("2023-01-01T00:00:00Z"), .jstr ("2023-01-02T00:00:00Z")⟩],
   -604800, 0⟩

/-- Witness for C5 on a single matching issue: exactly one trend entry,
fields copied verbatim. -/
theorem get_error_trends_shape_witness :
    (∀ siso eiso mo pid, (("limit"), JValue.jnum 100) ∈
        error_trends_params ("7d") siso eiso mo pid) ∧
    trendsWitnessResult.trends.length = [trendsWitnessIssue].length ∧
    trendsWitnessResult.trends.length ≤ 100 ∧
    (∀ i t, trendsWitnessResult.trends.get? i = some t →
      ∃ issue, [trendsWitnessIssue].get? i = some issue ∧
        issue.item ("type") = .ok t.error_type ∧
        issue.item ("title") = .ok t.message ∧
        issue.item ("count") = .ok t.count ∧
        issue.getD ("userCount") (.jnum 0) = .ok t.users_affected ∧
        issue.item ("firstSeen") = .ok t.first_seen ∧
        issue.item ("lastSeen") = .ok t.last_seen) :=
  get_error_trends_shape 0 (.ok 0) ("7d") [trendsWitnessIssue]
    trendsWitnessResult (by decide) (by rfl)

/-- Whether `int(issue.get(key, 0))` evaluates without raising. -/
def statFieldOk (key : String) (issue : JValue) : Bool :=
  match issueField key issue with
  | .ok _ => true
  | .error _ => false

theorem issueField_of_absent (kvs : List (String × JValue)) (key : String)
    (h : lookupKey kvs key = none) : issueField key (.jobj kvs) = .ok 0 := by
  show (Except.ok ((lookupKey kvs key).getD (.jnum 0))).bind pyInt = .ok 0
  rw [h]
  rfl

theorem sumIntField_ok_of_all (key : String) (issues : List JValue)
    (h : ∀ i ∈ issues, statFieldOk key i = true) :
    ∃ n, sumIntField issues key = .ok n := by
  induction issues with
  | nil => exact ⟨0, rfl⟩
  | cons a t ih =>
    have ha := h a (List.Mem.head _)
    unfold statFieldOk at ha
    obtain ⟨b, hb⟩ : ∃ b, issueField key a = .ok b := by
      cases hf : issueField key a with
      | error e => rw [hf] at ha; exact absurd ha (by simp)
      | ok b => exact ⟨b, rfl⟩
    obtain ⟨m, hm⟩ := ih (fun i hi => h i (List.mem_cons_of_mem a hi))
    refine ⟨b + m, ?_⟩
    unfold sumIntField
    rw [hb]
    simp only [Except.bind]
    rw [hm]

theorem exists_error_bind {α β : Type} {x : Except SentryError α}
    {f : α → Except SentryError β}
    (h : ∀ v, x = .ok v → ∃ e, f v = .error e) :
    ∃ e, x.bind f = .error e := by
  cases hx : x with
  | error e => exact ⟨e, by simp [Except.bind]⟩
  | ok v =>
    obtain ⟨e, he⟩ := h v hx
    exact ⟨e, by simp [Except.bind, he]⟩

theorem item_of_absent (kvs : List (String × JValue)) (key : String)
    (h : lookupKey kvs key = none) :
    JValue.item (.jobj kvs) key = .error (.pyError (("KeyError: ") ++ key)) := by
  simp only [JValue.item]
  rw [h]

theorem trendOf_error_of_missing (kvs : List (String × JValue)) (k : String)
    (hk : k ∈ [("type"), ("title"), ("count"), ("firstSeen"), ("lastSeen")])
    (h : lookupKey kvs k = none) : ∃ e, trendOf (.jobj kvs) = .error e := by
  unfold trendOf
  fin_cases hk
  · exact ⟨_, by rw [item_of_absent kvs _ h]; rfl⟩
  · apply exists_error_bind; intro et h1
    exact ⟨_, by rw [item_of_absent kvs _ h]; rfl⟩
  · apply exists_error_bind; intro et h1
    apply exists_error_bind; intro ti h2
    exact ⟨_, by rw [item_of_absent kvs _ h]; rfl⟩
  · apply exists_error_bind; intro et h1
    apply exists_error_bind; intro ti h2
    apply exists_error_bind; intro cn h3
    apply exists_error_bind; intro ua h4
    exact ⟨_, by rw [item_of_absent kvs _ h]; rfl⟩
  · apply exists_error_bind; intro et h1
    apply exists_error_bind; intro ti h2
    apply exists_error_bind; intro cn h3
    apply exists_error_bind; intro ua h4
    apply exists_error_bind; intro fs h5
    exact ⟨_, by rw [item_of_absent kvs _ h]; rfl⟩

theorem mapExcept_error_of_mem {α β : Type} (f : α → Except SentryError β)
    (l : List α) (a : α) (ha : a ∈ l) (e : SentryError) (hf : f a = .error e) :
    ∃ e2, mapExcept f l = .error e2 := by
  induction l with
  | nil => cases ha
  | cons b t ih =>
    unfold mapExcept
    cases hb : f b with
    | error e3 => exact ⟨e3, by simp [Except.bind]⟩
    | ok v =>
      rcases List.mem_cons.mp ha with rfl | hat
      · rw [hb] at hf; exact absurd hf (by simp)
      · obtain ⟨e2, ht⟩ := ih hat
        refine ⟨e2, ?_⟩
        simp only [Except.bind]
        rw [ht]

/-- C9: `get_project_stats` is tolerant of missing aggregate fields — an
issue object without `count` (resp. `userCount`) contributes 0 to the
corresponding total, and the operation succeeds on any list of issue
objects whose present aggregate fields are int-convertible — whereas
`get_error_trends` fails whenever a returned issue is missing any of
`type`, `title`, `count`, `firstSeen`, `lastSeen`, while a missing
`userCount` defaults to 0. -/
theorem stats_tolerant_trends_strict :
    (∀ (kvs : List (String × JValue)) (rest : List JValue) (key : String),
        lookupKey kvs key = none →
        sumIntField (.jobj kvs :: rest) key = sumIntField rest key) ∧
    (∀ (now : Int) (creation : Except SentryError Int) (time_range : String)
        (group_by : Option String) (issues : List JValue) (st en : Int),
        parse_time_range now creation time_range = .ok (st, en) →
        (∀ i ∈ issues, statFieldOk ("count") i = true) →
        (∀ i ∈ issues, statFieldOk ("userCount") i = true) →
        ∃ r, get_project_stats now creation (.ok (.jarr issues)) time_range
            group_by = .ok r) ∧
    (∀ (now : Int) (creation : Except SentryError Int) (time_range : String)
        (issues : List JValue) (st en : Int) (kvs : List (String × JValue))
        (k : String),
        parse_time_range now creation time_range = .ok (st, en) →
        JValue.jobj kvs ∈ issues →
        k ∈ [("type"), ("title"), ("count"), ("firstSeen"), ("lastSeen")] →
        lookupKey kvs k = none →
        ∃ e, get_error_trends now creation (.ok (.jarr issues)) time_range
            = .error e) ∧
    (∀ (kvs : List (String × JValue)) (et ti cn fs ls : JValue),
        lookupKey kvs ("type") = some et →
        lookupKey kvs ("title") = some ti →
        lookupKey kvs ("count") = some cn →
        lookupKey kvs ("firstSeen") = some fs →
        lookupKey kvs ("lastSeen") = some ls →
        lookupKey kvs ("userCount") = none →
        trendOf (.jobj kvs) = .ok ⟨et, ti, cn, .jnum 0, fs, ls⟩) := by
  refine ⟨?_, ?_, ?_, ?_⟩
  · intro kvs rest key h
    show (issueField key (.jobj kvs)).bind _ = _
    rw [issueField_of_absent kvs key h]
    simp only [Except.bind]
    cases hr : sumIntField rest key with
    | error e => rfl
    | ok m => simp only [Except.bind]; rw [Int.zero_add]
  · intro now creation time_range group_by issues st en htr hc hu
    obtain ⟨te, hte⟩ := sumIntField_ok_of_all ("count") issues hc
    obtain ⟨tu, htu⟩ := sumIntField_ok_of_all ("userCount") issues hu
    unfold get_project_stats
    rw [htr]
    simp only [Except.bind, jIter]
    rw [hte]
    simp only [Except.bind]
    rw [htu]
    exact ⟨_, rfl⟩
  · intro now creation time_range issues st en kvs k htr hmem hk h
    obtain ⟨e, he⟩ := trendOf_error_of_missing kvs k hk h
    obtain ⟨e2, hm⟩ := mapExcept_error_of_mem trendOf issues _ hmem e he
    unfold get_error_trends
    rw [htr]
    simp only [Except.bind, jIter]
    rw [hm]
    exact ⟨e2, rfl⟩
  · intro kvs et ti cn fs ls h1 h2 h3 h4 h5 h6
    simp only [trendOf, JValue.item, JValue.getD]
    rw [h1, h2, h3, h4, h5, h6]
    rfl

/-- Witness for C9: the empty issue object contributes 0 and
`get_project_stats` succeeds on it, `get_error_trends` fails on it (its
`type` key is missing), and an issue with the five required keys but no
`userCount` maps to a trend entry with `users_affected = 0`. -/
theorem stats_tolerant_trends_strict_witness :
    sumIntField [.jobj []] ("count") = sumIntField [] ("count") ∧
    (∃ r, get_project_stats 0 (.ok 0) (.ok (.jarr [.jobj []])) ("24h") none
        = .ok r) ∧
    (∃ e, get_error_trends 0 (.ok 0) (.ok (.jarr [.jobj []])) ("24h")
        = .error e) ∧
    trendOf (.jobj [(("type"), .jstr ("error")),
                    (("title"), .jstr ("Test Error")),
                    (("count"), .jnum 10),
                    (("firstSeen"), .jstr ("2023-01-01T00:00:00Z")),
                    (("lastSeen"), .jstr ("2023-01-02T00:00:00Z"))])
      = .ok ⟨.jstr ("error"), .jstr ("Test Error"), .jnum 10, .jnum 0,
             .jstr ("2023-01-01T00:00:00Z"), .jstr ("2023-01-02T00:00:00Z")⟩ :=
  ⟨stats_tolerant_trends_strict.1 [] [] ("count") rfl,
   stats_tolerant_trends_strict.2.1 0 (.ok 0) ("24h") none [.jobj []]
     (-86400) 0 (by rfl) (by decide) (by decide),
   stats_tolerant_trends_strict.2.2.1 0 (.ok 0) ("24h") [.jobj []]
     (-86400) 0 [] ("type") (by rfl) (List.Mem.head _) (by decide) rfl,
   stats_tolerant_trends_strict.2.2.2 _ _ _ _ _ _ rfl rfl rfl rfl rfl rfl⟩

/-- Python `v[0]` on a JSON value: first element of a list (`IndexError`
when the list is empty); non-sequences raise (a parsed-JSON dict has
string keys, so `d[0]` raises `KeyError`). -/
def jFirst : JValue → Except SentryError JValue
  | .jarr [] => .error (.pyError ("IndexError: list index out of range"))
  | .jarr (x :: _) => .ok x
  | _ => .error (.pyError ("TypeError: value is not subscriptable by 0"))

/-- Python `len(v)`: length of a list, dict or string; `TypeError`
otherwise. -/
def pyLen : JValue → Except SentryError Int
  | .jarr xs => .ok xs.length
  | .jobj kvs => .ok kvs.length
  | .jstr s => .ok s.length
  | _ => .error (.pyError ("TypeError: value has no len"))

/-- Python `v[:n]` on a parsed JSON list. -/
def jTake : JValue → Nat → Except SentryError (List JValue)
  | .jarr xs, n => .ok (xs.take n)
  | _, _ => .error (.pyError ("TypeError: value is not sliceable"))

/-- Unpacking `timestamp, count` from one element of the received-event
timeline and requiring `count` to be a number so that `sum` can add it
(`reporter.py`, lines 263-265). -/
def timelineCount : JValue → Except SentryError Int
  | .jarr [_, .jnum c] => .ok c
  | .jarr l =>
    if l.length = 2 then
      .error (.pyError ("TypeError: unsupported operand for +"))
    else .error (.pyError ("ValueError: wrong number of values to unpack"))
  | _ => .error (.pyError ("TypeError: cannot unpack non-sequence"))

/-- `sum(count for timestamp, count in stats_data)`: left-to-right, first
exception aborts. -/
def sumTimelineList : List JValue → Except SentryError Int
  | [] => .ok 0
  | item :: rest =>
    (timelineCount item).bind (fun c =>
      (sumTimelineList rest).bind (fun m => .ok (c + m)))

def sumTimeline (stats_data : JValue) : Except SentryError Int :=
  (jIter stats_data).bind sumTimelineList

/-- `session_data.get('groups', [{}])[0].get('totals', {}).get(key, 0)`
(`reporter.py`, lines 269-274): a missing `groups` key falls back to the
default `[{}]`, whose first element is the empty dict, making the final
default 0; an empty `groups` list makes the `[0]` indexing raise. -/
def sessionTotal (session_data : JValue) (key : String) :
    Except SentryError JValue :=
  (session_data.getD ("groups") (.jarr [.jobj []])).bind (fun groups =>
    (jFirst groups).bind (fun g =>
      (g.getD ("totals") (.jobj [])).bind (fun totals =>
        totals.getD key (.jnum 0))))

/-- One entry of `latest_releases` (`reporter.py`, lines 280-286):
`version` and `dateCreated` are required lookups, `status` defaults to
the string `unknown`. -/
structure ReleaseEntry where
  version : JValue
  created : JValue
  status : JValue
deriving Repr

def releaseEntry (release : JValue) : Except SentryError ReleaseEntry :=
  (release.item ("version")).bind (fun v =>
  (release.item ("dateCreated")).bind (fun c =>
  (release.getD ("status") (.jstr ("unknown"))).bind (fun s =>
  .ok ⟨v, c, s⟩)))

/-- The dictionary returned by `get_impact_analysis` (`reporter.py`,
lines 261-292), flattened: `error_stats`, `session_stats`,
`release_stats` and `time_range` fields in evaluation order. -/
structure ImpactAnalysis where
  total_errors : Int
  error_timeline : JValue
  total_sessions : JValue
  total_users : JValue
  session_timeline : JValue
  total_releases : Int
  latest_releases : List ReleaseEntry
  time_range_start : Int
  time_range_end : Int
deriving Repr

/-- Embedding of `SentryReporter.get_impact_analysis` (`reporter.py`,
lines 215..300): resolve the time range, perform the three upstream
queries in order — received-event stats (`stats_r`), session aggregates
(`session_r`, whose request carries a `query=issue:<id>` filter when
`issue_id` is given), releases (`release_r`) — then build the combined
result; the result dict literal evaluates its parts in source order. -/
def get_impact_analysis (now : Int) (creation : Except SentryError Int)
    (stats_r session_r release_r : Except SentryError JValue)
    (time_range : String) (issue_id : Option String) :
    Except SentryError ImpactAnalysis :=
  (parse_time_range now creation time_range).bind (fun se =>
    stats_r.bind (fun stats_data =>
      session_r.bind (fun session_data =>
        release_r.bind (fun release_data =>
          (sumTimeline stats_data).bind (fun total_errors =>
            (sessionTotal session_data ("sum(session)")).bind (fun tot_sess =>
              (sessionTotal session_data ("count_unique(user)")).bind (fun tot_usr =>
                (session_data.getD ("intervals") (.jarr [])).bind (fun timeline =>
                  (pyLen release_data).bind (fun total_releases =>
                    (jTake release_data 5).bind (fun top5 =>
                      (mapExcept releaseEntry top5).bind (fun latest =>
                        .ok ⟨total_errors, stats_data, tot_sess, tot_usr,
                             timeline, total_releases, latest,
                             se.1, se.2⟩)))))))))))

/-- C6: if any one of the three upstream sub-queries inside
`get_impact_analysis` fails, the whole call fails — no result dictionary,
partial or otherwise, is produced. -/
theorem get_impact_analysis_no_partial (now : Int)
    (creation : Except SentryError Int)
    (stats_r session_r release_r : Except SentryError JValue)
    (time_range : String) (issue_id : Option String)
    (h : (∃ e, stats_r = .error e) ∨ (∃ e, session_r = .error e) ∨
         (∃ e, release_r = .error e)) :
    ∃ e, get_impact_analysis now creation stats_r session_r release_r
        time_range issue_id = .error e := by
  unfold get_impact_analysis
  apply exists_error_bind
  intro se _
  rcases h with ⟨e, he⟩ | ⟨e, he⟩ | ⟨e, he⟩
  · exact ⟨e, by rw [he]; rfl⟩
  · apply exists_error_bind
    intro sd _
    exact ⟨e, by rw [he]; rfl⟩
  · apply exists_error_bind
    intro sd _
    apply exists_error_bind
    intro ssd _
    exact ⟨e, by rw [he]; rfl⟩

/-- Witness for C6: a failing received-event query aborts the whole
impact analysis. -/
theorem get_impact_analysis_no_partial_witness :
    ∃ e, get_impact_analysis 0 (.ok 0)
        (.error (.apiError ("API request failed: boom")))
        (.ok (.jobj [])) (.ok (.jarr [])) ("24h") none = .error e :=
  get_impact_analysis_no_partial 0 (.ok 0)
    (.error (.apiError ("API request failed: boom")))
    (.ok (.jobj [])) (.ok (.jarr [])) ("24h") none
    (Or.inl ⟨_, rfl⟩)

theorem sessionTotal_no_groups (kvs : List (String × JValue)) (key : String)
    (h : lookupKey kvs ("groups") = none) :
    sessionTotal (.jobj kvs) key = .ok (.jnum 0) := by
  show (Except.ok ((lookupKey kvs ("groups")).getD (.jarr [.jobj []]))).bind
      (fun groups => (jFirst groups).bind (fun g =>
        (g.getD ("totals") (.jobj [])).bind (fun totals =>
          totals.getD key (.jnum 0)))) = .ok (.jnum 0)
  rw [h]
  rfl

theorem sessionTotal_empty_groups (kvs : List (String × JValue)) (key : String)
    (h : lookupKey kvs ("groups") = some (.jarr [])) :
    sessionTotal (.jobj kvs) key
      = .error (.pyError ("IndexError: list index out of range")) := by
  show (Except.ok ((lookupKey kvs ("groups")).getD (.jarr [.jobj []]))).bind
      (fun groups => (jFirst groups).bind (fun g =>
        (g.getD ("totals") (.jobj [])).bind (fun totals =>
          totals.getD key (.jnum 0))))
      = .error (.pyError ("IndexError: list index out of range"))
  rw [h]
  rfl

/-- C10: a session response that omits the `groups` key makes both
session totals default to 0 and the impact analysis succeed (here with
benign stats and release responses), whereas a session response whose
`groups` is the empty list makes the `[0]` indexing raise, so the whole
operation fails and never returns a result. -/
theorem impact_groups_default_vs_empty :
    (∀ (kvs : List (String × JValue)),
        lookupKey kvs ("groups") = none →
        sessionTotal (.jobj kvs) ("sum(session)") = .ok (.jnum 0) ∧
        sessionTotal (.jobj kvs) ("count_unique(user)") = .ok (.jnum 0) ∧
        ∃ r, get_impact_analysis 0 (.ok 0) (.ok (.jarr []))
            (.ok (.jobj kvs)) (.ok (.jarr [])) ("24h") none = .ok r ∧
          r.total_sessions = .jnum 0 ∧ r.total_users = .jnum 0) ∧
    (∀ (now : Int) (creation : Except SentryError Int)
        (stats_r release_r : Except SentryError JValue) (time_range : String)
        (issue_id : Option String) (kvs : List (String × JValue)),
        lookupKey kvs ("groups") = some (.jarr []) →
        ∀ r, get_impact_analysis now creation stats_r (.ok (.jobj kvs))
            release_r time_range issue_id ≠ .ok r) := by
  constructor
  · intro kvs h
    refine ⟨sessionTotal_no_groups kvs _ h, sessionTotal_no_groups kvs _ h, ?_⟩
    refine ⟨⟨0, .jarr [], .jnum 0, .jnum 0,
             (lookupKey kvs ("intervals")).getD (.jarr []), 0, [],
             -86400, 0⟩, ?_, rfl, rfl⟩
    unfold get_impact_analysis
    have hp : parse_time_range 0 (.ok 0) ("24h") = .ok (-86400, 0) := by rfl
    rw [hp]
    simp only [Except.bind]
    have hs : sumTimeline (.jarr []) = .ok 0 := rfl
    rw [hs]
    simp only [Except.bind]
    rw [sessionTotal_no_groups kvs _ h]
    simp only [Except.bind]
    rw [sessionTotal_no_groups kvs _ h]
    simp only [Except.bind]
    rfl
  · intro now creation stats_r release_r time_range issue_id kvs h r hok
    unfold get_impact_analysis at hok
    cases htr : parse_time_range now creation time_range with
    | error e => rw [htr] at hok; exact absurd hok (by simp [Except.bind])
    | ok se =>
    rw [htr] at hok
    simp only [Except.bind] at hok
    cases hst : stats_r with
    | error e => rw [hst] at hok; exact absurd hok (by simp [Except.bind])
    | ok stats_data =>
    rw [hst] at hok
    simp only [Except.bind] at hok
    cases hrl : release_r with
    | error e => rw [hrl] at hok; exact absurd hok (by simp [Except.bind])
    | ok release_data =>
    rw [hrl] at hok
    simp only [Except.bind] at hok
    cases hsum : sumTimeline stats_data with
    | error e => rw [hsum] at hok; exact absurd hok (by simp [Except.bind])
    | ok te =>
    rw [hsum] at hok
    simp only [Except.bind] at hok
    rw [sessionTotal_empty_groups kvs _ h] at hok
    exact absurd hok (by simp [Except.bind])

/-- Witness for C10 at the concrete session objects `{}` (no `groups`
key) and a singleton object mapping `groups` to the empty list. -/
theorem impact_groups_default_vs_empty_witness :
    (sessionTotal (.jobj []) ("sum(session)") = .ok (.jnum 0) ∧
     sessionTotal (.jobj []) ("count_unique(user)") = .ok (.jnum 0) ∧
     ∃ r, get_impact_analysis 0 (.ok 0) (.ok (.jarr []))
         (.ok (.jobj [])) (.ok (.jarr [])) ("24h") none = .ok r ∧
       r.total_sessions = .jnum 0 ∧ r.total_users = .jnum 0) ∧
    (∀ r, get_impact_analysis 0 (.ok 0) (.ok (.jarr []))
        (.ok (.jobj [(("groups"), .jarr [])]))
        (.ok (.jarr [])) ("24h") none ≠ .ok r) :=
  ⟨impact_groups_default_vs_empty.1 [] rfl,
   impact_groups_default_vs_empty.2 0 (.ok 0) (.ok (.jarr [])) (.ok (.jarr []))
     ("24h") none [(("groups"), .jarr [])] rfl⟩

mutual
/-- Python `repr` of a parsed JSON value, as interpolated by f-strings
for non-string values (string escaping inside the quotes is elided). -/
def pyRepr : JValue → String
  | .jnull => ("None")
  | .jbool true => ("True")
  | .jbool false => ("False")
  | .jnum n => toString n
  | .jstr s => ("\x27") ++ s ++ ("\x27")
  | .jarr xs => ("[") ++ pyReprList xs ++ ("]")
  | .jobj kvs => ("\x7b") ++ pyReprPairs kvs ++ ("\x7d")

def pyReprList : List JValue → String
  | [] => ("")
  | [x] => pyRepr x
  | x :: xs => pyRepr x ++ (", ") ++ pyReprList xs

def pyReprPairs : List (String × JValue) → String
  | [] => ("")
  | [(k, v)] => ("\x27") ++ k ++ ("\x27: ") ++ pyRepr v
  | (k, v) :: kvs =>
    ("\x27") ++ k ++ ("\x27: ") ++ pyRepr v ++ (", ") ++ pyReprPairs kvs
end

/-- Python `str` of a parsed JSON value, as interpolated by
`f"Unknown tool: {tool}"`: strings render as themselves, everything else
as its repr. -/
def pyStr : JValue → String
  | .jstr s => s
  | v => pyRepr v

/-- Python truthiness of `request.get("tool")` for the `if not tool`
check (`server.py`, line 69): `None` (absent key), `False`, `0`, the
empty string, the empty list and the empty dict are falsy. -/
def pyFalsy : Option JValue → Bool
  | none => true
  | some .jnull => true
  | some (.jbool b) => !b
  | some (.jnum n) => n == 0
  | some (.jstr s) => s.isEmpty
  | some (.jarr xs) => xs.isEmpty
  | some (.jobj kvs) => kvs.isEmpty

/-- The three tool names the dispatch cascade of `handle_request`
recognises (`server.py`, lines 73-78). -/
def knownTools : List String :=
  [("get_project_stats"), ("get_error_trends"), ("get_impact_analysis")]

/-- The message the two `except` clauses of `handle_request` put into the
error envelope: typed errors render as `str(e)`, anything else with the
`Unexpected error: ` prefix (`server.py`, lines 82-95). -/
def renderCaught (e : SentryError) : String :=
  if e.isTyped then e.message else ("Unexpected error: ") ++ e.message

/-- The outcome of `json.loads` on an incoming request line: a
`JSONDecodeError` with message `msg`, or a parsed JSON value — which need
not be an object. -/
inductive ParsedRequest where
  | parseError (msg : String)
  | parsed (v : JValue)

/-- The body of the `try` block dispatching to a reporter method:
`reporter name params` models `self.reporter.<name>(**params)` — the
response payload, or whatever exception that call raised (including
argument-unpacking `TypeError`s, which also happen inside the `try`).
Both `except` clauses convert the exception into an error envelope, so
this never propagates an exception. -/
def dispatchTool (reporter : String → JValue → Except SentryError JValue)
    (name : String) (params : JValue) : Except SentryError JValue :=
  match reporter name params with
  | .ok result => .ok result
  | .error e => .ok (.jobj [(("error"), .jstr (renderCaught e))])

/-- Embedding of `SentryMCPServer.handle_request` (`server.py`, lines
46..95).  The outer `Except` is an exception escaping `handle_request`
itself: `request.get("tool")` on line 66 sits outside both `try` blocks,
so a parsed request that is not a dict raises `AttributeError` out of the
function.  The source's locals `tool` and `params` are inlined; the
three-way `elif` cascade on the tool string is folded into one membership
test over `knownTools`, each branch calling the reporter method of the
same name. -/
def handle_request (reporter : String → JValue → Except SentryError JValue)
    (input : ParsedRequest) : Except SentryError JValue :=
  match input with
  | .parseError msg =>
    .ok (.jobj [(("error"), .jstr (("Invalid JSON request: ") ++ msg))])
  | .parsed (.jobj kvs) =>
    if pyFalsy (lookupKey kvs ("tool")) then
      .ok (.jobj [(("error"), .jstr ("Missing required field: tool"))])
    else
      match lookupKey kvs ("tool") with
      | some (.jstr s) =>
        if s ∈ knownTools then
          dispatchTool reporter s ((lookupKey kvs ("parameters")).getD (.jobj []))
        else
          .ok (.jobj [(("error"), .jstr (("Unknown tool: ") ++ s))])
      | some t => .ok (.jobj [(("error"), .jstr (("Unknown tool: ") ++ pyStr t))])
      | none => .ok (.jobj [(("error"), .jstr ("Missing required field: tool"))])
  | .parsed _ =>
    .error (.pyError ("AttributeError: value has no attribute get"))

/-- C7 fails as stated: the line `[]` is valid JSON but not an object, so
`json.loads` succeeds and `request.get("tool")` — evaluated outside both
`try` blocks — raises `AttributeError` out of `handle_request` instead of
producing an error envelope.  (Separately, the envelope for unparsable
JSON is `Invalid JSON request: <details>`, not exactly
`Invalid JSON request`.) -/
theorem handle_request_never_raises_counterexample :
    handle_request (fun _ _ => .ok .jnull) (.parsed (.jarr []))
      = .error (.pyError ("AttributeError: value has no attribute get")) := rfl

theorem string_isEmpty_false_of_ne (s : String) (h : s ≠ "") :
    s.isEmpty = false := by
  cases hs : s.isEmpty
  · rfl
  · exact absurd ((String.isEmpty_iff s).mp (by rw [hs])) h

theorem handle_request_obj_some_str
    (reporter : String → JValue → Except SentryError JValue)
    (kvs : List (String × JValue)) (name : String)
    (htool : lookupKey kvs ("tool") = some (.jstr name)) (hne : name ≠ "") :
    handle_request reporter (.parsed (.jobj kvs)) =
      if name ∈ knownTools then
        dispatchTool reporter name
          ((lookupKey kvs ("parameters")).getD (.jobj []))
      else .ok (.jobj [(("error"), .jstr (("Unknown tool: ") ++ name))]) := by
  simp only [handle_request]
  have hf : pyFalsy (lookupKey kvs ("tool")) = false := by
    rw [htool]
    simp [pyFalsy, string_isEmpty_false_of_ne name hne]
  rw [if_neg (by rw [hf]; exact Bool.false_ne_true), htool]

theorem dispatchTool_ok (reporter : String → JValue → Except SentryError JValue)
    (name : String) (params : JValue) :
    ∃ resp, dispatchTool reporter name params = .ok resp := by
  unfold dispatchTool
  cases reporter name params with
  | ok result => exact ⟨result, rfl⟩
  | error e => exact ⟨_, rfl⟩

/-- C7 amended: for every input that fails to parse or parses to a JSON
object, `handle_request` returns an envelope and never raises; an
unparsable line yields the envelope `Invalid JSON request: <details>`; a
request whose `tool` field is missing (or falsy) yields the fixed missing-
tool message; an unknown tool name yields `Unknown tool: <name>`; a typed
error raised by a dispatched operation is rendered as an envelope carrying
exactly its message, an untyped one with the `Unexpected error: ` prefix;
a successful dispatch returns the payload unchanged.  Only a request that
parses to a non-object value escapes as an exception. -/
theorem handle_request_fails_closed
    (reporter : String → JValue → Except SentryError JValue) :
    (∀ msg, handle_request reporter (.parseError msg)
        = .ok (.jobj [(("error"), .jstr (("Invalid JSON request: ") ++ msg))])) ∧
    (∀ kvs, ∃ resp, handle_request reporter (.parsed (.jobj kvs)) = .ok resp) ∧
    (∀ kvs, pyFalsy (lookupKey kvs ("tool")) = true →
        handle_request reporter (.parsed (.jobj kvs))
          = .ok (.jobj [(("error"), .jstr ("Missing required field: tool"))])) ∧
    (∀ kvs name, lookupKey kvs ("tool") = some (.jstr name) →
        name ∉ knownTools → name ≠ "" →
        handle_request reporter (.parsed (.jobj kvs))
          = .ok (.jobj [(("error"), .jstr (("Unknown tool: ") ++ name))])) ∧
    (∀ kvs name e, lookupKey kvs ("tool") = some (.jstr name) →
        name ∈ knownTools →
        reporter name ((lookupKey kvs ("parameters")).getD (.jobj [])) = .error e →
        handle_request reporter (.parsed (.jobj kvs))
          = .ok (.jobj [(("error"), .jstr (renderCaught e))])) ∧
    (∀ kvs name result, lookupKey kvs ("tool") = some (.jstr name) →
        name ∈ knownTools →
        reporter name ((lookupKey kvs ("parameters")).getD (.jobj [])) = .ok result →
        handle_request reporter (.parsed (.jobj kvs)) = .ok result) := by
  refine ⟨fun msg => rfl, ?_, ?_, ?_, ?_, ?_⟩
  · intro kvs
    simp only [handle_request]
    by_cases hf : pyFalsy (lookupKey kvs ("tool")) = true
    · rw [if_pos hf]; exact ⟨_, rfl⟩
    · rw [if_neg hf]
      cases htool : lookupKey kvs ("tool") with
      | none => exact ⟨_, rfl⟩
      | some t =>
        cases t with
        | jstr s =>
          show ∃ resp,
            (if s ∈ knownTools then
              dispatchTool reporter s
                ((lookupKey kvs ("parameters")).getD (.jobj []))
            else .ok (.jobj [(("error"), .jstr (("Unknown tool: ") ++ s))]))
            = Except.ok resp
          by_cases hk : s ∈ knownTools
          · rw [if_pos hk]; exact dispatchTool_ok reporter s _
          · rw [if_neg hk]; exact ⟨_, rfl⟩
        | jnull => exact ⟨_, rfl⟩
        | jbool b => exact ⟨_, rfl⟩
        | jnum n => exact ⟨_, rfl⟩
        | jarr xs => exact ⟨_, rfl⟩
        | jobj kvs2 => exact ⟨_, rfl⟩
  · intro kvs hf
    simp only [handle_request]
    rw [if_pos hf]
  · intro kvs name htool hnk hne
    rw [handle_request_obj_some_str reporter kvs name htool hne, if_neg hnk]
  · intro kvs name e htool hk hrep
    have hne : name ≠ "" := by
      intro hcon
      rw [hcon] at hk
      exact absurd hk (by decide)
    rw [handle_request_obj_some_str reporter kvs name htool hne, if_pos hk]
    unfold dispatchTool
    rw [hrep]
  · intro kvs name result htool hk hrep
    have hne : name ≠ "" := by
      intro hcon
      rw [hcon] at hk
      exact absurd hk (by decide)
    rw [handle_request_obj_some_str reporter kvs name htool hne, if_pos hk]
    unfold dispatchTool
    rw [hrep]

/-- Witness for the amended C7, one concrete input per clause. -/
theorem handle_request_fails_closed_witness :
    (handle_request (fun _ _ => .ok .jnull) (.parseError ("Expecting value"))
      = .ok (.jobj [(("error"),
          .jstr (("Invalid JSON request: ") ++ ("Expecting value")))])) ∧
    (∃ resp, handle_request (fun _ _ => .ok .jnull)
        (.parsed (.jobj [(("tool"), .jnum 5)])) = .ok resp) ∧
    (handle_request (fun _ _ => .ok .jnull) (.parsed (.jobj []))
      = .ok (.jobj [(("error"), .jstr ("Missing required field: tool"))])) ∧
    (handle_request (fun _ _ => .ok .jnull)
        (.parsed (.jobj [(("tool"), .jstr ("unknown_tool"))]))
      = .ok (.jobj [(("error"),
          .jstr (("Unknown tool: ") ++ ("unknown_tool")))])) ∧
    (handle_request (fun _ _ => .error (.validationError ("Invalid time range")))
        (.parsed (.jobj [(("tool"), .jstr ("get_project_stats"))]))
      = .ok (.jobj [(("error"),
          .jstr (renderCaught (.validationError ("Invalid time range"))))])) ∧
    (handle_request (fun _ _ => .ok (.jobj [(("total_errors"), .jnum 0)]))
        (.parsed (.jobj [(("tool"), .jstr ("get_project_stats"))]))
      = .ok (.jobj [(("total_errors"), .jnum 0)])) :=
  ⟨(handle_request_fails_closed (fun _ _ => .ok .jnull)).1 ("Expecting value"),
   (handle_request_fails_closed (fun _ _ => .ok .jnull)).2.1
     [(("tool"), .jnum 5)],
   (handle_request_fails_closed (fun _ _ => .ok .jnull)).2.2.1 [] rfl,
   (handle_request_fails_closed (fun _ _ => .ok .jnull)).2.2.2.1
     [(("tool"), .jstr ("unknown_tool"))] ("unknown_tool") rfl
     (by decide) (by decide),
   (handle_request_fails_closed
       (fun _ _ => .error (.validationError ("Invalid time range")))).2.2.2.2.1
     [(("tool"), .jstr ("get_project_stats"))] ("get_project_stats")
     (.validationError ("Invalid time range")) rfl (by decide) rfl,
   (handle_request_fails_closed
       (fun _ _ => .ok (.jobj [(("total_errors"), .jnum 0)]))).2.2.2.2.2
     [(("tool"), .jstr ("get_project_stats"))] ("get_project_stats")
     (.jobj [(("total_errors"), .jnum 0)]) rfl (by decide) rfl⟩

/-- The outcome of the underlying `requests.request(...)` call combined
with `response.raise_for_status()` and `response.json()`, as observed by
the `try` block of `_make_request`: either a successfully parsed JSON
body, or a `requests.exceptions.RequestException` — a transport failure
(no HTTP status, `status = none`) or an HTTP error status raised by
`raise_for_status` (`status = some code`). -/
inductive HttpOutcome where
  | success (body : JValue)
  | requestException (status : Option Nat) (text : String)

/-- The `str(e)` of the caught `RequestException`: an `HTTPError` raised
by `raise_for_status` renders the status code first (as in
`404 Client Error: Not Found for url: ...`); transport errors have no
status code in front. -/
def exceptionText : Option Nat → String → String
  | some code, text => toString code ++ (" ") ++ text
  | none, text => text

/-- Embedding of `SentryReporter._make_request` (`reporter.py`, lines
37..58): a successful request returns the parsed body; every
`RequestException` is logged and re-raised as
`SentryAPIError("API request failed: " + str(e))`. -/
def make_request (outcome : HttpOutcome) : Except SentryError JValue :=
  match outcome with
  | .success body => .ok body
  | .requestException st text =>
    .error (.apiError (("API request failed: ") ++ exceptionText st text))

/-- C8: `_make_request` raises `SentryAPIError` exactly when the HTTP
request fails with a `RequestException` — a transport error or an error
status raised by `raise_for_status` — and when an upstream status code is
available the raised error preserves it in its message; a successful
request returns the parsed body unchanged. -/
theorem make_request_error_iff (outcome : HttpOutcome) :
    ((∃ e, make_request outcome = .error e) ↔
      ∃ st text, outcome = .requestException st text) ∧
    (∀ code text, outcome = .requestException (some code) text →
      make_request outcome = .error (.apiError
        (("API request failed: ") ++ (toString code ++ (" ") ++ text)))) ∧
    (∀ body, outcome = .success body → make_request outcome = .ok body) := by
  refine ⟨?_, ?_, ?_⟩
  · constructor
    · rintro ⟨e, he⟩
      cases outcome with
      | success body => exact absurd he (by simp [make_request])
      | requestException st text => exact ⟨st, text, rfl⟩
    · rintro ⟨st, text, rfl⟩
      exact ⟨_, rfl⟩
  · rintro code text rfl
    rfl
  · rintro body rfl
    rfl

/-- Witness for C8: a 404 response raises `SentryAPIError` with the
status code in the message; a successful response passes its body
through. -/
theorem make_request_error_iff_witness :
    make_request (.requestException (some 404) ("Client Error: Not Found"))
      = .error (.apiError (("API request failed: ")
          ++ (toString (404 : Nat) ++ (" ") ++ ("Client Error: Not Found")))) ∧
    make_request (.success (.jobj [])) = .ok (.jobj []) :=
  ⟨(make_request_error_iff
      (.requestException (some 404) ("Client Error: Not Found"))).2.1
      404 ("Client Error: Not Found") rfl,
   (make_request_error_iff (.success (.jobj []))).2.2 (.jobj []) rfl⟩
